import Mathlib

/-!
Shallow embedding of the skill dispatch/execution layer, the orchestrator
routing decision, and the onboarding state machine of the virtus backend
(src/app/backend/src). Timestamps are modelled as natural numbers counting
seconds, so that a Python timedelta of d days is d * 86400.
-/

namespace Virtus

/-- Python str.lower on one character, for the ASCII range the modelled
keywords use (Python also lowers accented letters; no keyword needs that). -/
def pyLowerChar (c : Char) : Char :=
  if c.toNat ≥ 65 && c.toNat ≤ 90 then Char.ofNat (c.toNat + 32) else c

/-- Python str.lower. -/
def pyLower (s : String) : String :=
  String.mk (s.data.map pyLowerChar)

/-- The ASCII whitespace Python str.strip removes. -/
def pySpace (c : Char) : Bool :=
  c = ' ' || c = '\t' || c = '\n' || c = '\r' || c = Char.ofNat 11 || c = Char.ofNat 12

/-- Python str.strip(): whitespace removed from both ends. -/
def pyStrip (s : String) : String :=
  String.mk (((s.data.dropWhile pySpace).reverse.dropWhile pySpace).reverse)

/-- Python str.split(sep) on character lists, nonempty sep: scan left to
right, cutting at each occurrence of sep. Fuel-driven so the kernel can
evaluate it; the fuel never runs out when it starts at the list length. -/
def pySplitAux (sep : List Char) : Nat → List Char → List Char → List (List Char)
  | _, [], cur => [cur.reverse]
  | 0, cs, cur => [cur.reverse ++ cs]
  | fuel + 1, c :: cs, cur =>
      if (c :: cs).take sep.length = sep then
        cur.reverse :: pySplitAux sep fuel ((c :: cs).drop sep.length) []
      else
        pySplitAux sep fuel cs (c :: cur)

/-- Python str.split(sep) for a nonempty separator. -/
def pySplit (s sep : String) : List String :=
  (pySplitAux sep.data (s.data.length + 1) s.data []).map String.mk

/-- Python substring containment (`pat in s`); the empty pattern is contained
in every string. For a nonempty pattern, `pat` occurs in `s` iff splitting on
it yields more than one piece. -/
def strContains (s pat : String) : Bool :=
  if pat = "" then true else (pySplit s pat).length != 1

/-- One entry of the conversation_history list kept inside onboarding_data
(src/services/onboarding.py, save_step_response). -/
structure HistEntry where
  step : String
  timestamp : Nat
  user_response : String
  deriving DecidableEq

/-- A JSON-like value stored in the onboarding_data mapping: the extracted
name (string), the extracted goals (list of strings), or the
conversation_history list. -/
inductive Val where
  | vstr : String → Val
  | vlist : List String → Val
  | vhist : List HistEntry → Val
  deriving DecidableEq

/-- The onboarding_data JSONB column: a Python dict, modelled as an
insertion-ordered association list. -/
abbrev OnboardingData := List (String × Val)

/-- Payload of a SkillResult at the boundaries modelled here: the dicts built
by the onboarding skill handlers (skill_onboarding_short.py). -/
inductive RData where
  | startData (status : String) (current_step : Option String) (message : String)
      (next_step : String)
  | processData (is_valid : Bool) (validation_error : Option String) (current_step : String)
      (next_step : Option String) (next_message : Option String) (extracted_data : OnboardingData)
  | statusData (status : String) (current_step : Option String) (progress_percent : Nat)
      (started_at : Option Nat) (completed_at : Option Nat) (current_message : Option String)
  deriving DecidableEq

/-- src/skills/base.py, SkillResult: success flag, optional data, optional
error message. -/
structure SkillResult where
  success : Bool
  data : Option RData
  error : Option String
  deriving DecidableEq

/-- A Python exception as the executor sees it: type(e).__name__ and str(e). -/
structure PyExn where
  kind : String
  msg : String
  deriving DecidableEq

/-- Skill arguments: dict[str, Any]; the skills modelled here only read
string-valued entries. -/
abbrev Args := List (String × String)

/-- Outcome of awaiting a skill's execute coroutine: either it raises an
exception or it returns a SkillResult. -/
inductive ExecOutcome where
  | raises (e : PyExn)
  | returns (r : SkillResult)

/-- A registered skill, reduced to its execution behaviour
(src/skills/base.py, BaseSkill.execute). -/
structure Skill where
  run : Args → ExecOutcome

/-- src/skills/registry.py: the registry dict _skills, name to skill. -/
abbrev SkillRegistry := List (String × Skill)

/-- SkillRegistry.get_skill: pure lookup, None when absent. -/
def get_skill (registry : SkillRegistry) (skill_name : String) : Option Skill :=
  List.lookup skill_name registry

namespace SkillExecutor

/-- src/skills/executor.py, SkillExecutor.execute: raises SkillExecutionError
when the name is not registered; otherwise runs the skill, converting any
exception the skill raises into SkillResult(success=False,
error=type name ++ ": " ++ message). -/
def execute (registry : SkillRegistry) (skill_name : String) (args : Args) :
    Except PyExn SkillResult :=
  match get_skill registry skill_name with
  | none =>
      Except.error
        { kind := "SkillExecutionError",
          msg := "Skill '" ++ skill_name ++ "' not found in registry" }
  | some skill =>
      match skill.run args with
      | ExecOutcome.returns result => Except.ok result
      | ExecOutcome.raises e =>
          Except.ok { success := false, data := none, error := some (e.kind ++ ": " ++ e.msg) }

/-- src/skills/executor.py, SkillExecutor.execute_with_fallback: delegates to
execute, and turns the SkillExecutionError of an unregistered name into a
failure result carrying the fallback message (defaulted when None). -/
def execute_with_fallback (registry : SkillRegistry) (skill_name : String) (args : Args)
    (fallback_message : Option String) : SkillResult :=
  match execute registry skill_name args with
  | Except.ok result => result
  | Except.error _ =>
      { success := false, data := none,
        error := some (fallback_message.getD ("Skill '" ++ skill_name ++ "' is not available")) }

end SkillExecutor

/-- src/agents/actions.py, ActionType. -/
inductive ActionType where
  | DIRECT_RESPONSE
  | SKILL_CALL
  deriving DecidableEq

/-- A skill argument value placed in an Action: a string or an int
(days_ahead). -/
inductive ArgValue where
  | avStr (s : String)
  | avInt (n : Nat)
  deriving DecidableEq

/-- src/agents/actions.py, Action dataclass. -/
structure Action where
  type : ActionType
  skill_name : Option String
  skill_args : Option (List (String × ArgValue))
  reasoning : Option String
  deriving DecidableEq

/-- The user part of the context dict that _decide_action reads:
context.get("user", {}).get("id" / "timezone", default). -/
structure Context where
  user_id : Option String
  user_timezone : Option String
  deriving DecidableEq

/-- src/agents/orchestrator.py line 154. -/
def time_keywords : List String := ["time", "date", "hora", "data", "quando"]

/-- src/agents/orchestrator.py line 155. -/
def preferences_keywords : List String := ["preferences", "preferências", "settings", "configurações"]

/-- src/agents/orchestrator.py line 156. -/
def calendar_keywords : List String := ["calendar", "calendário", "events", "eventos", "agenda"]

/-- Python any(keyword in message_lower for keyword in keywords). -/
def containsAny (s : String) (keywords : List String) : Bool :=
  keywords.any (fun k => strContains s k)

/-- src/agents/orchestrator.py, OrchestratorAgent._decide_action: ordered
keyword matching over the lowercased message, first match wins. -/
def decide_action (message : String) (context : Context) : Action :=
  let message_lower := pyLower message
  if containsAny message_lower time_keywords then
    { type := ActionType.SKILL_CALL,
      skill_name := some "get_current_date",
      skill_args := some [("timezone", ArgValue.avStr (context.user_timezone.getD "UTC"))],
      reasoning := some "User asked about time/date" }
  else if containsAny message_lower preferences_keywords then
    { type := ActionType.SKILL_CALL,
      skill_name := some "get_user_preferences",
      skill_args := some [("user_id", ArgValue.avStr (context.user_id.getD ""))],
      reasoning := some "User asked about preferences" }
  else if containsAny message_lower calendar_keywords then
    { type := ActionType.SKILL_CALL,
      skill_name := some "get_calendar_events",
      skill_args := some [("user_id", ArgValue.avStr (context.user_id.getD "")),
                          ("days_ahead", ArgValue.avInt 7)],
      reasoning := some "User asked about calendar" }
  else
    { type := ActionType.DIRECT_RESPONSE,
      skill_name := none,
      skill_args := none,
      reasoning := some "No matching skill, direct response" }

/-- src/db/models/user_profile.py, OnboardingStatus. -/
inductive OnboardingStatus where
  | NOT_STARTED
  | IN_PROGRESS
  | COMPLETED
  deriving DecidableEq

/-- The .value string of the enum member. -/
def OnboardingStatus.value : OnboardingStatus → String
  | OnboardingStatus.NOT_STARTED => "NOT_STARTED"
  | OnboardingStatus.IN_PROGRESS => "IN_PROGRESS"
  | OnboardingStatus.COMPLETED => "COMPLETED"

/-- The onboarding fields of UserProfile (src/db/models/user_profile.py) that
src/services/onboarding.py reads and writes. -/
structure UserProfile where
  onboarding_status : OnboardingStatus
  onboarding_current_step : Option String
  onboarding_started_at : Option Nat
  onboarding_completed_at : Option Nat
  onboarding_data : Option OnboardingData
  deriving DecidableEq

/-- A Python exception raised inside the onboarding service or skill: either
an HTTPException (which has a .detail) or the AttributeError of appending to
a non-list (whose str(e) is type-dependent; modelled by its message). -/
inductive PyErr where
  | http (code : Nat) (detail : String)
  | attr (msg : String)
  deriving DecidableEq

/-- The error string the skill handlers build from a caught exception:
e.detail when the exception has one (HTTPException), else str(e). -/
def handlerError : PyErr → String
  | PyErr.http _ detail => detail
  | PyErr.attr msg => msg

/-- src/services/onboarding.py line 17, ONBOARDING_STEPS. -/
def ONBOARDING_STEPS : List String := ["welcome", "name", "goals", "preferences", "conclusion"]

/-- src/services/onboarding.py line 20, STEP_PROGRESS. -/
def STEP_PROGRESS : List (String × Nat) :=
  [("welcome", 0), ("name", 20), ("goals", 40), ("preferences", 60), ("conclusion", 80)]

/-- src/services/onboarding.py, start_onboarding: 400 if COMPLETED, otherwise
set IN_PROGRESS, started_at = now, current_step = welcome, empty data. -/
def start_onboarding (profile : UserProfile) (now : Nat) : Except PyErr UserProfile :=
  if profile.onboarding_status = OnboardingStatus.COMPLETED then
    Except.error (PyErr.http 400 "Onboarding already completed for this user")
  else
    Except.ok
      { profile with
        onboarding_status := OnboardingStatus.IN_PROGRESS,
        onboarding_started_at := some now,
        onboarding_current_step := some "welcome",
        onboarding_data := some [] }

/-- The dict returned by get_onboarding_state. -/
structure OnbState where
  status : String
  current_step : Option String
  progress_percent : Nat
  started_at : Option Nat
  completed_at : Option Nat
  data : OnboardingData
  deriving DecidableEq

/-- src/services/onboarding.py, get_onboarding_state: pure read with derived
progress (COMPLETED is 100, else the STEP_PROGRESS entry of the current step,
defaulting to 0). -/
def get_onboarding_state (profile : UserProfile) : OnbState :=
  { status := profile.onboarding_status.value,
    current_step := profile.onboarding_current_step,
    progress_percent :=
      if profile.onboarding_status = OnboardingStatus.COMPLETED then 100
      else
        match profile.onboarding_current_step with
        | some s => (List.lookup s STEP_PROGRESS).getD 0
        | none => 0,
    started_at := profile.onboarding_started_at,
    completed_at := profile.onboarding_completed_at,
    data := profile.onboarding_data.getD [] }

/-- Python dict assignment d[k] = v on an insertion-ordered dict: replace in
place when the key exists, else append. -/
def setKey (d : OnboardingData) (k : String) (v : Val) : OnboardingData :=
  if (List.lookup k d).isSome then
    d.map (fun kv => if kv.1 = k then (k, v) else kv)
  else d ++ [(k, v)]

/-- Python dict.update: each pair of upd is assigned into d in order. -/
def dictUpdate (d upd : OnboardingData) : OnboardingData :=
  upd.foldl (fun acc kv => setKey acc kv.1 kv.2) d

/-- src/services/onboarding.py, save_step_response: merge data into
onboarding_data ({} when null) and, when a raw user_response is given, append
a {step, timestamp, user_response} entry to conversation_history (creating
the list when absent). Appending to a conversation_history value that is not
a list raises AttributeError in Python, before anything is written back. -/
def save_step_response (profile : UserProfile) (step : String) (data : OnboardingData)
    (user_response : Option String) (now : Nat) : Except PyErr UserProfile :=
  let current_data := dictUpdate (profile.onboarding_data.getD []) data
  match user_response with
  | none => Except.ok { profile with onboarding_data := some current_data }
  | some resp =>
      let entry : HistEntry := { step := step, timestamp := now, user_response := resp }
      match List.lookup "conversation_history" current_data with
      | none =>
          Except.ok
            { profile with
              onboarding_data := some (current_data ++ [("conversation_history", Val.vhist [entry])]) }
      | some (Val.vhist h) =>
          Except.ok
            { profile with
              onboarding_data :=
                some (setKey current_data "conversation_history" (Val.vhist (h ++ [entry]))) }
      | some _ => Except.error (PyErr.attr "object has no attribute append")

/-- src/services/onboarding.py, complete_onboarding: COMPLETED with
completed_at = now. -/
def complete_onboarding (profile : UserProfile) (now : Nat) : UserProfile :=
  { profile with
    onboarding_status := OnboardingStatus.COMPLETED,
    onboarding_completed_at := some now }

/-- src/services/onboarding.py, advance_step: None goes to the first step,
conclusion completes, an unknown step resets to the first step, otherwise the
successor in ONBOARDING_STEPS (completing past the last). -/
def advance_step (profile : UserProfile) (now : Nat) : UserProfile :=
  match profile.onboarding_current_step with
  | none => { profile with onboarding_current_step := some (ONBOARDING_STEPS.headD "") }
  | some current_step =>
      if current_step = "conclusion" then complete_onboarding profile now
      else
        match ONBOARDING_STEPS.indexOf? current_step with
        | some current_index =>
            if h : current_index + 1 < ONBOARDING_STEPS.length then
              { profile with
                onboarding_current_step := some (ONBOARDING_STEPS.get ⟨current_index + 1, h⟩) }
            else complete_onboarding profile now
        | none => { profile with onboarding_current_step := some (ONBOARDING_STEPS.headD "") }

/-- src/services/onboarding.py, check_session_timeout: when IN_PROGRESS and
started more than max_days ago, clear status/started_at/current_step/data and
report True; otherwise change nothing and report False. -/
def check_session_timeout (profile : UserProfile) (now : Nat) (max_days : Nat) :
    Bool × UserProfile :=
  if profile.onboarding_status ≠ OnboardingStatus.IN_PROGRESS then (false, profile)
  else
    match profile.onboarding_started_at with
    | some started =>
        if now - started > max_days * 86400 then
          (true,
            { profile with
              onboarding_status := OnboardingStatus.NOT_STARTED,
              onboarding_started_at := none,
              onboarding_current_step := none,
              onboarding_data := none })
        else (false, profile)
    | none => (false, profile)

/-- src/services/onboarding.py, reset_onboarding: everything cleared back to
NOT_STARTED. -/
def reset_onboarding (profile : UserProfile) : UserProfile :=
  { profile with
    onboarding_status := OnboardingStatus.NOT_STARTED,
    onboarding_started_at := none,
    onboarding_current_step := none,
    onboarding_data := none,
    onboarding_completed_at := none }

/-- src/services/onboarding.py, skip_onboarding: 400 if COMPLETED, otherwise
COMPLETED with completed_at = now (nothing else touched). -/
def skip_onboarding (profile : UserProfile) (now : Nat) : Except PyErr UserProfile :=
  if profile.onboarding_status = OnboardingStatus.COMPLETED then
    Except.error (PyErr.http 400 "Onboarding already completed for this user")
  else
    Except.ok
      { profile with
        onboarding_status := OnboardingStatus.COMPLETED,
        onboarding_completed_at := some now }

/-- src/skills/onboarding/steps.py, OnboardingStep. -/
inductive OnboardingStep where
  | WELCOME
  | NAME
  | GOALS
  | PREFERENCES
  | CONCLUSION
  deriving DecidableEq

/-- The .value string of the step enum member. -/
def OnboardingStep.value : OnboardingStep → String
  | OnboardingStep.WELCOME => "welcome"
  | OnboardingStep.NAME => "name"
  | OnboardingStep.GOALS => "goals"
  | OnboardingStep.PREFERENCES => "preferences"
  | OnboardingStep.CONCLUSION => "conclusion"

/-- src/skills/onboarding/steps.py, STEP_SEQUENCE. -/
def STEP_SEQUENCE : List OnboardingStep :=
  [OnboardingStep.WELCOME, OnboardingStep.NAME, OnboardingStep.GOALS,
   OnboardingStep.PREFERENCES, OnboardingStep.CONCLUSION]

/-- One entry of STEP_DEFINITIONS: prompt, whether validation is required,
whether data is extracted, and the extracted data key. -/
structure StepDef where
  prompt : String
  validation_required : Bool
  extract_data : Bool
  data_key : Option String
  deriving DecidableEq

/-- src/skills/onboarding/steps.py, STEP_DEFINITIONS. -/
def STEP_DEFINITIONS : OnboardingStep → StepDef
  | OnboardingStep.WELCOME =>
      { prompt :=
          "Olá! Sou o Virtus, seu assistente pessoal de produtividade e bem-estar. " ++
          "Vou te ajudar a organizar sua vida, definir objetivos e manter o foco no que importa. " ++
          "Antes de começarmos, preciso te conhecer um pouco melhor. Vamos lá?",
        validation_required := false, extract_data := false, data_key := none }
  | OnboardingStep.NAME =>
      { prompt := "Para começar, como você gostaria de ser chamado(a)?",
        validation_required := true, extract_data := true, data_key := some "name" }
  | OnboardingStep.GOALS =>
      { prompt :=
          "Prazer em te conhecer! Me conta: quais são seus principais objetivos atualmente? " ++
          "Pode ser na carreira, saúde, relacionamentos, ou qualquer área da sua vida.",
        validation_required := true, extract_data := true, data_key := some "goals" }
  | OnboardingStep.PREFERENCES =>
      { prompt :=
          "Ótimo! Agora preciso saber algumas preferências para te ajudar melhor. " ++
          "Qual é seu fuso horário? (ex: America/Sao_Paulo)",
        validation_required := true, extract_data := true, data_key := some "preferences" }
  | OnboardingStep.CONCLUSION =>
      { prompt :=
          "Perfeito! Seu perfil está configurado. Estou pronto para te ajudar a alcançar " ++
          "seus objetivos. Vamos começar seu primeiro planejamento?",
        validation_required := false, extract_data := false, data_key := none }

/-- src/skills/onboarding/steps.py, get_next_step: the successor in
STEP_SEQUENCE, None at the end. -/
def get_next_step (current_step : OnboardingStep) : Option OnboardingStep :=
  match STEP_SEQUENCE.indexOf? current_step with
  | some current_index =>
      if h : current_index + 1 < STEP_SEQUENCE.length then
        some (STEP_SEQUENCE.get ⟨current_index + 1, h⟩)
      else none
  | none => none

/-- src/skills/onboarding/steps.py, get_step_from_string. -/
def get_step_from_string (step_str : String) : Option OnboardingStep :=
  if step_str = "welcome" then some OnboardingStep.WELCOME
  else if step_str = "name" then some OnboardingStep.NAME
  else if step_str = "goals" then some OnboardingStep.GOALS
  else if step_str = "preferences" then some OnboardingStep.PREFERENCES
  else if step_str = "conclusion" then some OnboardingStep.CONCLUSION
  else none

/-- src/skills/onboarding/validators.py, validate_name: empty/whitespace,
shorter than 2 or longer than 100 characters is rejected. -/
def validate_name (name : String) : Bool × Option String :=
  if pyStrip name = "" then (false, some "Por favor, me diga seu nome.")
  else
    let stripped := pyStrip name
    if stripped.length < 2 then (false, some "O nome deve ter pelo menos 2 caracteres.")
    else if stripped.length > 100 then (false, some "O nome deve ter no máximo 100 caracteres.")
    else (true, none)

/-- src/skills/onboarding/validators.py, extract_name: strip. -/
def extract_name (text : String) : String :=
  pyStrip text

/-- src/skills/onboarding/validators.py, validate_goals: empty/whitespace or
shorter than 5 characters is rejected. -/
def validate_goals (goals_text : String) : Bool × Option String :=
  if pyStrip goals_text = "" then (false, some "Por favor, me conte pelo menos um objetivo.")
  else
    let stripped := pyStrip goals_text
    if stripped.length < 5 then
      (false, some "Descreva seus objetivos com um pouco mais de detalhe.")
    else (true, none)

/-- src/skills/onboarding/validators.py, extract_goals: strip, then split on
the first separator that occurs — comma, then the word " e ", then newline —
else a single item. -/
def extract_goals (text : String) : List String :=
  let normalized := pyStrip text
  if strContains normalized "," then
    ((pySplit normalized ",").map pyStrip).filter (fun g => g ≠ "")
  else if strContains normalized " e " then
    ((pySplit normalized " e ").map pyStrip).filter (fun g => g ≠ "")
  else if strContains normalized "\n" then
    ((pySplit normalized "\n").map pyStrip).filter (fun g => g ≠ "")
  else [normalized]

/-- A character matched by the [A-Za-z_] class of the timezone regex. -/
def tzChar (c : Char) : Bool :=
  (Char.ofNat 65 ≤ c && c ≤ Char.ofNat 90) || (Char.ofNat 97 ≤ c && c ≤ Char.ofNat 122) ||
    c = Char.ofNat 95

/-- The region alternatives of the timezone regex, in alternation order. -/
def tzRegions : List String := ["America", "Europe", "Asia", "Africa", "Pacific", "Australia"]

/-- A match of (America|Europe|Asia|Africa|Pacific|Australia)/[A-Za-z_]+
anchored at the head of the character list, greedy in the word part. -/
def tzMatchAt (cs : List Char) : Option String :=
  tzRegions.findSome? (fun region =>
    let rcs := region.toList
    if cs.take rcs.length = rcs then
      match cs.drop rcs.length with
      | '/' :: rest =>
          let word := rest.takeWhile tzChar
          if word = [] then none else some (region ++ "/" ++ String.mk word)
      | _ => none
    else none)

/-- re.search of the timezone pattern: the leftmost match. -/
def tzSearchAux : List Char → Option String
  | [] => none
  | c :: rest =>
      match tzMatchAt (c :: rest) with
      | some m => some m
      | none => tzSearchAux rest

/-- re.search(timezone_pattern, text) of extract_preferences. -/
def tzSearch (text : String) : Option String :=
  tzSearchAux text.toList

/-- src/skills/onboarding/validators.py, extract_preferences: regex-matched
timezone, else known city aliases; language defaults to pt-BR unless an
English cue occurs. -/
def extract_preferences (text : String) : List (String × String) :=
  let lower := pyLower text
  let tzPart : List (String × String) :=
    match tzSearch text with
    | some tz => [("timezone", tz)]
    | none =>
        if strContains lower "são paulo" || strContains lower "sao paulo" then
          [("timezone", "America/Sao_Paulo")]
        else if strContains lower "brasilia" || strContains lower "brasília" then
          [("timezone", "America/Sao_Paulo")]
        else if strContains lower "utc" then [("timezone", "UTC")]
        else []
  let language :=
    if strContains lower "en" || strContains lower "english" || strContains lower "inglês" then
      "en"
    else "pt-BR"
  tzPart ++ [("language", language)]

/-- src/skills/onboarding/validators.py, validate_preferences: empty input,
no recognizable timezone, or a timezone the host timezone database rejects is
invalid. The ZoneInfo database membership is the zoneOk parameter. -/
def validate_preferences (zoneOk : String → Bool) (prefs_text : String) : Bool × Option String :=
  if pyStrip prefs_text = "" then (false, some "Por favor, informe seu fuso horário.")
  else
    let prefs := extract_preferences prefs_text
    match List.lookup "timezone" prefs with
    | none =>
        (false, some "Não consegui identificar o fuso horário. Use o formato: America/Sao_Paulo")
    | some tz =>
        if tz = "" then
          (false, some "Não consegui identificar o fuso horário. Use o formato: America/Sao_Paulo")
        else if zoneOk tz then (true, none)
        else
          (false,
            some ("Fuso horário '" ++ tz ++ "' não reconhecido. Use o formato: America/Sao_Paulo"))

/-- src/skills/onboarding/validators.py, validate_welcome: always valid. -/
def validate_welcome (_response : String) : Bool × Option String :=
  (true, none)

/-- src/skills/onboarding/validators.py, validate_conclusion: always
valid. -/
def validate_conclusion (_response : String) : Bool × Option String :=
  (true, none)

/-- src/skills/onboarding/validators.py, STEP_VALIDATORS. -/
def STEP_VALIDATORS (zoneOk : String → Bool) (step : String) :
    Option (String → Bool × Option String) :=
  if step = "welcome" then some validate_welcome
  else if step = "name" then some validate_name
  else if step = "goals" then some validate_goals
  else if step = "preferences" then some (validate_preferences zoneOk)
  else if step = "conclusion" then some validate_conclusion
  else none

/-- src/skills/onboarding/validators.py, STEP_EXTRACTORS. -/
def STEP_EXTRACTORS (step : String) : Option (String → OnboardingData) :=
  if step = "name" then some (fun text => [("name", Val.vstr (extract_name text))])
  else if step = "goals" then some (fun text => [("goals", Val.vlist (extract_goals text))])
  else if step = "preferences" then
    some (fun text => (extract_preferences text).map (fun kv => (kv.1, Val.vstr kv.2)))
  else none

/-- The validator dispatch of _handle_process_response: the looked-up
validator applied to the response, valid when the step has none. -/
def runValidator (zoneOk : String → Bool) (step : String) (response : String) :
    Bool × Option String :=
  match STEP_VALIDATORS zoneOk step with
  | some validator => validator response
  | none => (true, none)

/-- skill_onboarding_short.py, SkillOnboardingShort._handle_start: delegates
to start_onboarding; on success returns the welcome prompt and the refreshed
state, on an exception a failure result with the exception detail. -/
def handle_start (profile : UserProfile) (now : Nat) : SkillResult × UserProfile :=
  match start_onboarding profile now with
  | Except.ok p1 =>
      ({ success := true,
         data := some
           (RData.startData p1.onboarding_status.value p1.onboarding_current_step
             (STEP_DEFINITIONS OnboardingStep.WELCOME).prompt OnboardingStep.NAME.value),
         error := none }, p1)
  | Except.error e =>
      ({ success := false, data := none, error := some (handlerError e) }, profile)

/-- The extract-and-save block of _handle_process_response: when the
response is valid and the step extracts data, run the extractor and persist
via save_step_response; otherwise nothing is written. -/
def extractAndSave (_zoneOk : String → Bool) (profile : UserProfile) (current_step : OnboardingStep)
    (user_response : String) (now : Nat) (is_valid : Bool) :
    Except PyErr (OnboardingData × UserProfile) :=
  if is_valid && (STEP_DEFINITIONS current_step).extract_data then
    match STEP_EXTRACTORS current_step.value with
    | some extractor =>
        let extracted := extractor user_response
        match save_step_response profile current_step.value extracted
            (some user_response) now with
        | Except.ok p1 => Except.ok (extracted, p1)
        | Except.error e => Except.error e
    | none => Except.ok ([], profile)
  else Except.ok ([], profile)

/-- The advance-and-reply block of _handle_process_response, run when the
response was valid: advance the step, look up the next step and its prompt
(personalised with the collected name on the goals step). -/
def advanceAndReply (_zoneOk : String → Bool) (current_step : OnboardingStep)
    (vres : Bool × Option String) (extracted : OnboardingData) (p1 : UserProfile) (now : Nat) :
    SkillResult × UserProfile :=
  let p2 := advance_step p1 now
  match get_next_step current_step with
  | some next_step_enum =>
      let base := (STEP_DEFINITIONS next_step_enum).prompt
      let next_message :=
        if next_step_enum = OnboardingStep.GOALS then
          let updated := get_onboarding_state p2
          let name :=
            match List.lookup "name" updated.data with
            | some (Val.vstr n) => n
            | _ => ""
          if name ≠ "" then "Prazer em te conhecer, " ++ name ++ "! " ++ base
          else base
        else base
      ({ success := true,
         data := some
           (RData.processData vres.1 vres.2 current_step.value
             (some next_step_enum.value) (some next_message) extracted),
         error := none }, p2)
  | none =>
      ({ success := true,
         data := some
           (RData.processData vres.1 vres.2 current_step.value none none extracted),
         error := none }, p2)

/-- The body of _handle_process_response after validation, as a function of
the validation outcome vres: extract and save when valid, then advance or
re-prompt (state untouched, is_valid false and the validator message in the
reply). -/
def processStepV (zoneOk : String → Bool) (profile : UserProfile) (current_step : OnboardingStep)
    (user_response : String) (now : Nat) (vres : Bool × Option String) :
    SkillResult × UserProfile :=
  match extractAndSave zoneOk profile current_step user_response now vres.1 with
  | Except.error e =>
      ({ success := false, data := none, error := some (handlerError e) }, profile)
  | Except.ok (extracted, p1) =>
      if vres.1 then advanceAndReply zoneOk current_step vres extracted p1 now
      else
        ({ success := true,
           data := some
             (RData.processData vres.1 vres.2 current_step.value none none extracted),
           error := none }, p1)

/-- The body of _handle_process_response once the current step has been
resolved to a step enum member: run the step's validator when the step
requires validation, then the post-validation body. -/
def processStep (zoneOk : String → Bool) (profile : UserProfile) (current_step : OnboardingStep)
    (user_response : String) (now : Nat) : SkillResult × UserProfile :=
  processStepV zoneOk profile current_step user_response now
    (if (STEP_DEFINITIONS current_step).validation_required then
      runValidator zoneOk current_step.value user_response
    else (true, none))

/-- skill_onboarding_short.py, SkillOnboardingShort._handle_process_response:
resolve the current step (failure results when onboarding has not started or
the stored step is unknown), then validate the response (unchanged state and
the validator message on rejection), extract and save on a valid extracting
step, and advance. A non-string name read for the goals personalisation
stands in for Python formatting an arbitrary value; it only matters on
states no modelled code produces. -/
def handle_process_response (zoneOk : String → Bool) (profile : UserProfile)
    (user_response : String) (now : Nat) : SkillResult × UserProfile :=
  let state := get_onboarding_state profile
  match state.current_step with
  | none => ({ success := false, data := none, error := some "Onboarding not started" }, profile)
  | some current_step_str =>
      if current_step_str = "" then
        ({ success := false, data := none, error := some "Onboarding not started" }, profile)
      else
        match get_step_from_string current_step_str with
        | none =>
            ({ success := false, data := none,
               error := some ("Invalid step: " ++ current_step_str) }, profile)
        | some current_step => processStep zoneOk profile current_step user_response now

/-- skill_onboarding_short.py, SkillOnboardingShort._handle_get_status: pure
read of the state with the current prompt. -/
def handle_get_status (profile : UserProfile) : SkillResult × UserProfile :=
  let state := get_onboarding_state profile
  let current_message : Option String :=
    match state.current_step with
    | some cs =>
        if cs = "" then none
        else
          match get_step_from_string cs with
          | some st => some (STEP_DEFINITIONS st).prompt
          | none => none
    | none => none
  ({ success := true,
     data := some
       (RData.statusData state.status state.current_step state.progress_percent
         state.started_at state.completed_at current_message),
     error := none }, profile)

/-- skill_onboarding_short.py, SkillOnboardingShort.execute: argument checks
(missing user_id, missing action, invalid UUID — the Python UUID constructor
is the uuidOk parameter), then routing to the three action handlers, else an
unknown-action failure. The persisted profile row and the clock stand for the
database session. -/
def skillOnboardingExecute (zoneOk uuidOk : String → Bool) (args : Args)
    (profile : UserProfile) (now : Nat) : SkillResult × UserProfile :=
  match List.lookup "user_id" args with
  | none => ({ success := false, data := none, error := some "Missing required field: user_id" },
      profile)
  | some user_id_str =>
      if user_id_str = "" then
        ({ success := false, data := none, error := some "Missing required field: user_id" },
          profile)
      else
        match List.lookup "action" args with
        | none =>
            ({ success := false, data := none, error := some "Missing required field: action" },
              profile)
        | some action =>
            if action = "" then
              ({ success := false, data := none, error := some "Missing required field: action" },
                profile)
            else if !uuidOk user_id_str then
              ({ success := false, data := none,
                 error := some ("Invalid UUID format: " ++ user_id_str) }, profile)
            else if action = "start" then handle_start profile now
            else if action = "process_response" then
              handle_process_response zoneOk profile ((List.lookup "user_response" args).getD "")
                now
            else if action = "get_status" then handle_get_status profile
            else
              ({ success := false, data := none, error := some ("Unknown action: " ++ action) },
                profile)

/-! Spec-side definitions: the wording of the claims, to be compared with the
code-side functions above. -/

/-- The goal-splitting tie-break policy as the spec words it: of the
separators comma, conjunction token, newline, the first that occurs in the
trimmed input is the single separator applied; with none, the whole trimmed
input is one item. -/
def goalSplitSpec (text : String) : List String :=
  let t := pyStrip text
  match [",", " e ", "\n"].find? (fun sep => strContains t sep) with
  | some sep => ((pySplit t sep).map pyStrip).filter (fun g => g ≠ "")
  | none => [t]

/-- The reset condition of claim C7: IN_PROGRESS with a start timestamp more
than max_days in the past. -/
def sessionTimedOut (profile : UserProfile) (now max_days : Nat) : Bool :=
  (profile.onboarding_status == OnboardingStatus.IN_PROGRESS) &&
    (match profile.onboarding_started_at with
     | some started => decide (now - started > max_days * 86400)
     | none => false)

/-- The SkillResult data-model invariant of the spec: the error field is a
non-empty string whenever success is false. -/
def resultInvariant (r : SkillResult) : Prop :=
  r.success = false → ∃ m, r.error = some m ∧ m ≠ ""

/-- A skill whose own returned results satisfy the data-model invariant. -/
def skillWellBehaved (sk : Skill) : Prop :=
  ∀ args r, sk.run args = ExecOutcome.returns r → resultInvariant r

/-! Concrete fixtures for witnesses and counterexamples. -/

/-- A registered skill whose execution raises ValueError("boom"). -/
def raisingSkill : Skill :=
  { run := fun _ => ExecOutcome.raises { kind := "ValueError", msg := "boom" } }

/-- A registry holding only the raising skill. -/
def registryC1 : SkillRegistry := [("bad_skill", raisingSkill)]

/-- A registered skill that returns a failure result with no error message
(Python lets a skill build SkillResult(success=False) with error=None). -/
def sloppySkill : Skill :=
  { run := fun _ => ExecOutcome.returns { success := false, data := none, error := none } }

/-- A registry holding only the sloppy skill. -/
def registryC9 : SkillRegistry := [("sloppy", sloppySkill)]

/-- A mid-flow onboarding profile: IN_PROGRESS at the goals step with a
collected name. -/
def profileMidFlow : UserProfile :=
  { onboarding_status := OnboardingStatus.IN_PROGRESS,
    onboarding_current_step := some "goals",
    onboarding_started_at := some 0,
    onboarding_completed_at := none,
    onboarding_data := some [("name", Val.vstr "Ana")] }

/-- What start_onboarding makes of the mid-flow profile: re-initialized at
welcome with empty data and the new timestamp. -/
def profileRestarted : UserProfile :=
  { onboarding_status := OnboardingStatus.IN_PROGRESS,
    onboarding_current_step := some "welcome",
    onboarding_started_at := some 5,
    onboarding_completed_at := none,
    onboarding_data := some [] }

/-- A fresh NOT_STARTED profile. -/
def profileFresh : UserProfile :=
  { onboarding_status := OnboardingStatus.NOT_STARTED,
    onboarding_current_step := none,
    onboarding_started_at := none,
    onboarding_completed_at := none,
    onboarding_data := none }

/-- An IN_PROGRESS profile waiting at the name step. -/
def profileAtName : UserProfile :=
  { onboarding_status := OnboardingStatus.IN_PROGRESS,
    onboarding_current_step := some "name",
    onboarding_started_at := some 0,
    onboarding_completed_at := none,
    onboarding_data := some [] }

/-- The mid-flow profile after skip_onboarding at time 3: COMPLETED, with
step marker and collected data untouched. -/
def profileSkipped : UserProfile :=
  { onboarding_status := OnboardingStatus.COMPLETED,
    onboarding_current_step := some "goals",
    onboarding_started_at := some 0,
    onboarding_completed_at := some 3,
    onboarding_data := some [("name", Val.vstr "Ana")] }

/-- A timezone database that accepts every name (concrete stand-in for
ZoneInfo in witnesses). -/
def zoneOkAll : String → Bool := fun _ => true

/-! Helper lemmas shared by the claim theorems. -/

/-- Appending anything to a non-empty string keeps it non-empty. -/
theorem str_append_ne_empty_left (a b : String) (h : a ≠ "") : a ++ b ≠ "" := by
  obtain ⟨da⟩ := a
  obtain ⟨db⟩ := b
  intro hc
  have hd : da ++ db = ([] : List Char) := congrArg String.data hc
  rcases List.append_eq_nil.mp hd with ⟨h1, _⟩
  exact h (by rw [h1])

/-- Appending a non-empty string to anything gives a non-empty string. -/
theorem str_append_ne_empty_right (a b : String) (h : b ≠ "") : a ++ b ≠ "" := by
  obtain ⟨da⟩ := a
  obtain ⟨db⟩ := b
  intro hc
  have hd : da ++ db = ([] : List Char) := congrArg String.data hc
  rcases List.append_eq_nil.mp hd with ⟨_, h2⟩
  exact h (by rw [h2])

/-- The executor's exception rendering kind ++ ": " ++ msg is never empty. -/
theorem exn_render_ne_empty (e : PyExn) : e.kind ++ ": " ++ e.msg ≠ "" :=
  str_append_ne_empty_left _ _ (str_append_ne_empty_right _ _ (by decide))

/-- get_step_from_string is a left inverse of OnboardingStep.value. -/
theorem get_step_from_string_value (st : OnboardingStep) :
    get_step_from_string st.value = some st := by
  cases st <;> rfl

/-- A rejection of validate_name carries a non-empty message. -/
theorem validate_name_reject (s : String) (h : (validate_name s).1 = false) :
    ∃ m, (validate_name s).2 = some m ∧ m ≠ "" := by
  by_cases h1 : pyStrip s = ""
  · exact ⟨"Por favor, me diga seu nome.", by simp [validate_name, h1], by decide⟩
  · by_cases h2 : (pyStrip s).length < 2
    · exact ⟨"O nome deve ter pelo menos 2 caracteres.",
        by simp [validate_name, h1, h2], by decide⟩
    · by_cases h3 : (pyStrip s).length > 100
      · exact ⟨"O nome deve ter no máximo 100 caracteres.",
          by simp [validate_name, h1, h2, h3], by decide⟩
      · exact absurd h (by simp [validate_name, h1, h2, h3])

/-- A rejection of validate_goals carries a non-empty message. -/
theorem validate_goals_reject (s : String) (h : (validate_goals s).1 = false) :
    ∃ m, (validate_goals s).2 = some m ∧ m ≠ "" := by
  by_cases h1 : pyStrip s = ""
  · exact ⟨"Por favor, me conte pelo menos um objetivo.",
      by simp [validate_goals, h1], by decide⟩
  · by_cases h2 : (pyStrip s).length < 5
    · exact ⟨"Descreva seus objetivos com um pouco mais de detalhe.",
        by simp [validate_goals, h1, h2], by decide⟩
    · exact absurd h (by simp [validate_goals, h1, h2])

/-- A rejection of validate_preferences carries a non-empty message. -/
theorem validate_preferences_reject (zoneOk : String → Bool) (s : String)
    (h : (validate_preferences zoneOk s).1 = false) :
    ∃ m, (validate_preferences zoneOk s).2 = some m ∧ m ≠ "" := by
  by_cases h1 : pyStrip s = ""
  · exact ⟨"Por favor, informe seu fuso horário.",
      by simp [validate_preferences, h1], by decide⟩
  · cases hl : List.lookup "timezone" (extract_preferences s) with
    | none =>
        exact ⟨"Não consegui identificar o fuso horário. Use o formato: America/Sao_Paulo",
          by simp [validate_preferences, h1, hl], by decide⟩
    | some tz =>
        by_cases h2 : tz = ""
        · exact ⟨"Não consegui identificar o fuso horário. Use o formato: America/Sao_Paulo",
            by simp [validate_preferences, h1, hl, h2], by decide⟩
        · by_cases h3 : zoneOk tz
          · exact absurd h (by simp [validate_preferences, h1, hl, h2, h3])
          · refine ⟨"Fuso horário '" ++ tz ++ "' não reconhecido. Use o formato: America/Sao_Paulo",
              by simp [validate_preferences, h1, hl, h2, h3], ?_⟩
            exact str_append_ne_empty_left _ _ (str_append_ne_empty_left _ _ (by decide))

/-- Whenever a required validator of a step rejects, its message is
non-empty. -/
theorem runValidator_reject (zoneOk : String → Bool) (st : OnboardingStep) (resp : String)
    (hreq : (STEP_DEFINITIONS st).validation_required = true)
    (h : (runValidator zoneOk st.value resp).1 = false) :
    ∃ m, (runValidator zoneOk st.value resp).2 = some m ∧ m ≠ "" := by
  cases st
  case WELCOME => exact absurd hreq (by decide)
  case NAME => exact validate_name_reject resp h
  case GOALS => exact validate_goals_reject resp h
  case PREFERENCES => exact validate_preferences_reject zoneOk resp h
  case CONCLUSION => exact absurd hreq (by decide)

/-- The only exception save_step_response raises renders to a non-empty
error string. -/
theorem save_step_response_error_msg (p : UserProfile) (step : String) (data : OnboardingData)
    (ur : Option String) (now : Nat) (e : PyErr)
    (h : save_step_response p step data ur now = Except.error e) : handlerError e ≠ "" := by
  unfold save_step_response at h
  cases ur with
  | none => exact absurd h (by simp)
  | some resp =>
      cases hl : List.lookup "conversation_history"
          (dictUpdate (p.onboarding_data.getD []) data) with
      | none => simp [hl] at h
      | some v =>
          cases v <;> simp [hl] at h <;> simp [← h, handlerError]

/-- Every result of _handle_start satisfies the error invariant. -/
theorem handle_start_inv (p : UserProfile) (now : Nat) :
    resultInvariant (handle_start p now).1 := by
  unfold resultInvariant handle_start start_onboarding
  by_cases h : p.onboarding_status = OnboardingStatus.COMPLETED
  · simp [h, handlerError]
  · simp [h]

/-- Every result of _handle_get_status satisfies the error invariant. -/
theorem handle_get_status_inv (p : UserProfile) :
    resultInvariant (handle_get_status p).1 := by
  intro h
  exact Bool.noConfusion h

/-- The only exception extractAndSave propagates renders to a non-empty
error string. -/
theorem extractAndSave_error_msg (zoneOk : String → Bool) (p : UserProfile)
    (st : OnboardingStep) (resp : String) (now : Nat) (b : Bool) (e : PyErr)
    (h : extractAndSave zoneOk p st resp now b = Except.error e) : handlerError e ≠ "" := by
  unfold extractAndSave at h
  by_cases hv : b && (STEP_DEFINITIONS st).extract_data
  · rw [if_pos hv] at h
    cases hex : STEP_EXTRACTORS st.value with
    | none => simp [hex] at h
    | some extractor =>
        simp only [hex] at h
        cases hsv : save_step_response p st.value (extractor resp) (some resp) now with
        | ok p1 => simp [hsv] at h
        | error e0 =>
            simp only [hsv] at h
            injection h with h1
            rw [← h1]
            exact save_step_response_error_msg p st.value (extractor resp) (some resp) now e0 hsv
  · rw [if_neg hv] at h
    exact absurd h (by simp)

/-- When the validator rejects, the post-validation body changes nothing and
replies success with is_valid false and the validator message. -/
theorem processStepV_invalid (zoneOk : String → Bool) (p : UserProfile) (st : OnboardingStep)
    (resp : String) (now : Nat) (msg : Option String) :
    processStepV zoneOk p st resp now (false, msg) =
      ({ success := true,
         data := some (RData.processData false msg st.value none none []),
         error := none }, p) := rfl

/-- Every result of the advance-and-reply block has success true. -/
theorem advanceAndReply_inv (zoneOk : String → Bool) (st : OnboardingStep)
    (vres : Bool × Option String) (extracted : OnboardingData) (p1 : UserProfile) (now : Nat) :
    resultInvariant (advanceAndReply zoneOk st vres extracted p1 now).1 := by
  unfold advanceAndReply
  cases hnx : get_next_step st <;> simp only [hnx] <;> intro h <;> exact Bool.noConfusion h

/-- Every result of the post-validation body satisfies the error
invariant. -/
theorem processStepV_inv (zoneOk : String → Bool) (p : UserProfile) (st : OnboardingStep)
    (resp : String) (now : Nat) (vres : Bool × Option String) :
    resultInvariant (processStepV zoneOk p st resp now vres).1 := by
  obtain ⟨b, msg⟩ := vres
  cases b
  · rw [processStepV_invalid]
    intro h
    exact Bool.noConfusion h
  · unfold processStepV
    cases hsv : extractAndSave zoneOk p st resp now (true, msg).1 with
    | error e =>
        simp only [hsv]
        intro _
        exact ⟨_, rfl, extractAndSave_error_msg zoneOk p st resp now _ e hsv⟩
    | ok pr =>
        obtain ⟨extracted, p1⟩ := pr
        simp only [hsv, if_pos rfl]
        exact advanceAndReply_inv zoneOk st (true, msg) extracted p1 now

/-- Every result of _handle_process_response satisfies the error
invariant. -/
theorem handle_process_response_inv (zoneOk : String → Bool) (p : UserProfile)
    (resp : String) (now : Nat) :
    resultInvariant (handle_process_response zoneOk p resp now).1 := by
  unfold handle_process_response
  cases hcs : (get_onboarding_state p).current_step with
  | none =>
      simp only [hcs]
      exact fun _ => ⟨_, rfl, by decide⟩
  | some cstep =>
      simp only [hcs]
      by_cases he : cstep = ""
      · rw [if_pos he]
        exact fun _ => ⟨_, rfl, by decide⟩
      · rw [if_neg he]
        cases hst : get_step_from_string cstep with
        | none =>
            simp only [hst]
            exact fun _ => ⟨_, rfl, str_append_ne_empty_left _ _ (by decide)⟩
        | some st =>
            simp only [hst]
            exact processStepV_inv zoneOk p st resp now _

/-- Every result of the onboarding skill's execute satisfies the error
invariant. -/
theorem skillOnboardingExecute_inv (zoneOk uuidOk : String → Bool) (args : Args)
    (p : UserProfile) (now : Nat) :
    resultInvariant (skillOnboardingExecute zoneOk uuidOk args p now).1 := by
  unfold skillOnboardingExecute
  cases h1 : List.lookup "user_id" args with
  | none => exact fun _ => ⟨_, rfl, by decide⟩
  | some uid =>
      dsimp only
      by_cases h2 : uid = ""
      · rw [if_pos h2]
        exact fun _ => ⟨_, rfl, by decide⟩
      · rw [if_neg h2]
        cases h3 : List.lookup "action" args with
        | none => exact fun _ => ⟨_, rfl, by decide⟩
        | some act =>
            dsimp only
            by_cases h4 : act = ""
            · rw [if_pos h4]
              exact fun _ => ⟨_, rfl, by decide⟩
            · rw [if_neg h4]
              by_cases h5 : uuidOk uid
              · simp only [h5, Bool.not_true, Bool.false_eq_true, if_false]
                by_cases h6 : act = "start"
                · rw [if_pos h6]
                  exact handle_start_inv p now
                · rw [if_neg h6]
                  by_cases h7 : act = "process_response"
                  · rw [if_pos h7]
                    exact handle_process_response_inv zoneOk p _ now
                  · rw [if_neg h7]
                    by_cases h8 : act = "get_status"
                    · rw [if_pos h8]
                      exact handle_get_status_inv p
                    · rw [if_neg h8]
                      exact fun _ => ⟨_, rfl, str_append_ne_empty_left _ _ (by decide)⟩
              · simp only [h5, Bool.not_false, if_true]
                exact fun _ => ⟨_, rfl, str_append_ne_empty_left _ _ (by decide)⟩

/-- A successful return of SkillExecutor.execute satisfies the error
invariant whenever the registered skill keeps it. -/
theorem execute_ok_inv (registry : SkillRegistry) (skill_name : String) (args : Args)
    (result : SkillResult)
    (hwb : ∀ sk, get_skill registry skill_name = some sk → skillWellBehaved sk)
    (hex : SkillExecutor.execute registry skill_name args = Except.ok result) :
    resultInvariant result := by
  unfold SkillExecutor.execute at hex
  cases hsk : get_skill registry skill_name with
  | none => rw [hsk] at hex; exact absurd hex (by simp)
  | some sk =>
      rw [hsk] at hex
      dsimp only at hex
      cases hrun : sk.run args with
      | returns r0 =>
          rw [hrun] at hex
          injection hex with h1
          rw [← h1]
          exact hwb sk hsk args r0 hrun
      | raises e =>
          rw [hrun] at hex
          injection hex with h1
          rw [← h1]
          intro _
          exact ⟨_, rfl, exn_render_ne_empty e⟩

/-- Every result of SkillExecutor.execute_with_fallback satisfies the error
invariant whenever the registered skill keeps it and the fallback message is
not empty. -/
theorem execute_with_fallback_inv (registry : SkillRegistry) (skill_name : String) (args : Args)
    (fallback_message : Option String)
    (hwb : ∀ sk, get_skill registry skill_name = some sk → skillWellBehaved sk)
    (hfb : ∀ m, fallback_message = some m → m ≠ "") :
    resultInvariant
      (SkillExecutor.execute_with_fallback registry skill_name args fallback_message) := by
  unfold SkillExecutor.execute_with_fallback
  cases hex : SkillExecutor.execute registry skill_name args with
  | ok result => exact execute_ok_inv registry skill_name args result hwb hex
  | error e =>
      intro _
      refine ⟨_, rfl, ?_⟩
      cases fallback_message with
      | none => exact str_append_ne_empty_left _ _ (str_append_ne_empty_left _ _ (by decide))
      | some m => exact hfb m rfl

/-! Claim theorems. -/

/-- C1: for every skill name registered in the registry and every argument
mapping, SkillExecutor.execute returns a SkillResult rather than raising,
and when the skill's own execution raises any exception the executor converts
it into SkillResult(success=false) whose error is the exception kind, then
": ", then the exception message. -/
theorem executor_registered_total (registry : SkillRegistry) (skill_name : String)
    (args : Args) (sk : Skill) (hreg : get_skill registry skill_name = some sk) :
    (∃ result, SkillExecutor.execute registry skill_name args = Except.ok result) ∧
    (∀ e, sk.run args = ExecOutcome.raises e →
      SkillExecutor.execute registry skill_name args =
        Except.ok { success := false, data := none, error := some (e.kind ++ ": " ++ e.msg) }) := by
  unfold SkillExecutor.execute
  rw [hreg]
  dsimp only
  constructor
  · cases hrun : sk.run args with
    | returns r => exact ⟨r, rfl⟩
    | raises e => exact ⟨_, rfl⟩
  · intro e he
    rw [he]

/-- Witness for C1: the registered raising skill is converted into a failure
result with the rendered exception. -/
theorem executor_registered_total_witness :
    SkillExecutor.execute registryC1 "bad_skill" [] =
      Except.ok { success := false, data := none, error := some "ValueError: boom" } := by
  have h := executor_registered_total registryC1 "bad_skill" [] raisingSkill rfl
  exact h.2 { kind := "ValueError", msg := "boom" } rfl

/-- Counterexample for C2: for an unregistered name, SkillExecutor.execute
does not return a failure SkillResult — it raises SkillExecutionError. -/
theorem executor_unregistered_raises_cex :
    SkillExecutor.execute ([] : SkillRegistry) "foo" [] =
      Except.error { kind := "SkillExecutionError",
                     msg := "Skill 'foo' not found in registry" } := rfl

/-- C2 (amended): for every name absent from the registry, execute raises
SkillExecutionError (the distinguishable not-found condition), while
execute_with_fallback never raises and returns success=false carrying the
fallback message (defaulted when none is supplied). -/
theorem executor_unregistered_behaviour (registry : SkillRegistry) (skill_name : String)
    (args : Args) (fallback_message : Option String)
    (habs : get_skill registry skill_name = none) :
    SkillExecutor.execute registry skill_name args =
      Except.error { kind := "SkillExecutionError",
                     msg := "Skill '" ++ skill_name ++ "' not found in registry" } ∧
    SkillExecutor.execute_with_fallback registry skill_name args fallback_message =
      { success := false, data := none,
        error := some
          (fallback_message.getD ("Skill '" ++ skill_name ++ "' is not available")) } := by
  have h1 : SkillExecutor.execute registry skill_name args =
      Except.error { kind := "SkillExecutionError",
                     msg := "Skill '" ++ skill_name ++ "' not found in registry" } := by
    unfold SkillExecutor.execute
    rw [habs]
  refine ⟨h1, ?_⟩
  unfold SkillExecutor.execute_with_fallback
  rw [h1]

/-- Witness for C2: execute on the empty registry raises; the fallback
variant returns the default fallback message. -/
theorem executor_unregistered_behaviour_witness :
    SkillExecutor.execute ([] : SkillRegistry) "ghost" [] =
      Except.error { kind := "SkillExecutionError",
                     msg := "Skill 'ghost' not found in registry" } ∧
    SkillExecutor.execute_with_fallback ([] : SkillRegistry) "ghost" [] none =
      { success := false, data := none, error := some "Skill 'ghost' is not available" } :=
  executor_unregistered_behaviour [] "ghost" [] none rfl

/-- Counterexample for C3: start_onboarding on an IN_PROGRESS profile does
not return the same state unchanged — the mid-flow profile at the goals step
with collected data is re-initialized to the welcome step with empty data
and a fresh timestamp. -/
theorem start_in_progress_not_unchanged_cex :
    start_onboarding profileMidFlow 5 = Except.ok profileRestarted ∧
      profileRestarted ≠ profileMidFlow := ⟨rfl, by decide⟩

/-- C3 (amended): start on a non-COMPLETED profile transitions to
IN_PROGRESS at the welcome step with empty collected data and the start
timestamp set — so a NOT_STARTED user starts the flow, while calling start
again during IN_PROGRESS re-initializes the session rather than returning it
unchanged — and start on a COMPLETED profile fails with a reported
400 error; the skill-level start handler reports that error in a failure
result instead of crashing. -/
theorem start_onboarding_transitions (profile : UserProfile) (now : Nat) :
    (profile.onboarding_status ≠ OnboardingStatus.COMPLETED →
      start_onboarding profile now =
        Except.ok
          { profile with
            onboarding_status := OnboardingStatus.IN_PROGRESS,
            onboarding_started_at := some now,
            onboarding_current_step := some "welcome",
            onboarding_data := some [] }) ∧
    (profile.onboarding_status = OnboardingStatus.COMPLETED →
      start_onboarding profile now =
        Except.error (PyErr.http 400 "Onboarding already completed for this user")) ∧
    (profile.onboarding_status = OnboardingStatus.COMPLETED →
      handle_start profile now =
        ({ success := false, data := none,
           error := some "Onboarding already completed for this user" }, profile)) := by
  refine ⟨?_, ?_, ?_⟩
  · intro h
    unfold start_onboarding
    rw [if_neg h]
  · intro h
    unfold start_onboarding
    rw [if_pos h]
  · intro h
    have h1 : start_onboarding profile now =
        Except.error (PyErr.http 400 "Onboarding already completed for this user") := by
      unfold start_onboarding
      rw [if_pos h]
    unfold handle_start
    rw [h1]
    rfl

/-- Witness for C3: a NOT_STARTED profile starts into IN_PROGRESS(welcome)
with empty data and timestamp 11; a COMPLETED profile makes both the service
and the skill handler fail. -/
theorem start_onboarding_transitions_witness :
    start_onboarding profileFresh 11 =
      Except.ok
        { onboarding_status := OnboardingStatus.IN_PROGRESS,
          onboarding_current_step := some "welcome",
          onboarding_started_at := some 11,
          onboarding_completed_at := none,
          onboarding_data := some [] } ∧
    start_onboarding profileSkipped 12 =
      Except.error (PyErr.http 400 "Onboarding already completed for this user") ∧
    handle_start profileSkipped 12 =
      ({ success := false, data := none,
         error := some "Onboarding already completed for this user" }, profileSkipped) :=
  ⟨(start_onboarding_transitions profileFresh 11).1 (by decide),
   (start_onboarding_transitions profileSkipped 12).2.1 rfl,
   (start_onboarding_transitions profileSkipped 12).2.2 rfl⟩

/-- C4: the action decision is a deterministic first-match-wins procedure
over the lowercased message — a time/date keyword yields a SKILL_CALL to
get_current_date with the timezone from context, otherwise a preferences
keyword yields get_user_preferences, otherwise a calendar keyword yields
get_calendar_events with the fixed 7-day lookahead, otherwise
DIRECT_RESPONSE; in particular "What time is it?" routes to get_current_date
and "Hello" to a direct response. -/
theorem decide_action_first_match (message : String) (context : Context) :
    (containsAny (pyLower message) time_keywords = true →
      decide_action message context =
        { type := ActionType.SKILL_CALL,
          skill_name := some "get_current_date",
          skill_args := some [("timezone", ArgValue.avStr (context.user_timezone.getD "UTC"))],
          reasoning := some "User asked about time/date" }) ∧
    (containsAny (pyLower message) time_keywords = false →
      containsAny (pyLower message) preferences_keywords = true →
      decide_action message context =
        { type := ActionType.SKILL_CALL,
          skill_name := some "get_user_preferences",
          skill_args := some [("user_id", ArgValue.avStr (context.user_id.getD ""))],
          reasoning := some "User asked about preferences" }) ∧
    (containsAny (pyLower message) time_keywords = false →
      containsAny (pyLower message) preferences_keywords = false →
      containsAny (pyLower message) calendar_keywords = true →
      decide_action message context =
        { type := ActionType.SKILL_CALL,
          skill_name := some "get_calendar_events",
          skill_args := some [("user_id", ArgValue.avStr (context.user_id.getD "")),
                              ("days_ahead", ArgValue.avInt 7)],
          reasoning := some "User asked about calendar" }) ∧
    (containsAny (pyLower message) time_keywords = false →
      containsAny (pyLower message) preferences_keywords = false →
      containsAny (pyLower message) calendar_keywords = false →
      decide_action message context =
        { type := ActionType.DIRECT_RESPONSE,
          skill_name := none,
          skill_args := none,
          reasoning := some "No matching skill, direct response" }) ∧
    decide_action "What time is it?" { user_id := none, user_timezone := none } =
      { type := ActionType.SKILL_CALL,
        skill_name := some "get_current_date",
        skill_args := some [("timezone", ArgValue.avStr "UTC")],
        reasoning := some "User asked about time/date" } ∧
    decide_action "Hello" { user_id := none, user_timezone := none } =
      { type := ActionType.DIRECT_RESPONSE,
        skill_name := none,
        skill_args := none,
        reasoning := some "No matching skill, direct response" } := by
  refine ⟨?_, ?_, ?_, ?_, rfl, rfl⟩
  · intro h1
    simp [decide_action, h1]
  · intro h1 h2
    simp [decide_action, h1, h2]
  · intro h1 h2 h3
    simp [decide_action, h1, h2, h3]
  · intro h1 h2 h3
    simp [decide_action, h1, h2, h3]

/-- Witness for C4: a calendar message with no earlier keyword routes to
get_calendar_events with the context user id and the 7-day window. -/
theorem decide_action_first_match_witness :
    decide_action "agenda cheia" { user_id := some "u1", user_timezone := none } =
      { type := ActionType.SKILL_CALL,
        skill_name := some "get_calendar_events",
        skill_args := some [("user_id", ArgValue.avStr "u1"), ("days_ahead", ArgValue.avInt 7)],
        reasoning := some "User asked about calendar" } :=
  (decide_action_first_match "agenda cheia"
    { user_id := some "u1", user_timezone := none }).2.2.1 rfl rfl rfl

/-- C6: goal extraction applies exactly one separator chosen in the fixed
order comma, conjunction token " e ", newline — never combining them, and
with no separator the whole trimmed input is the single item — so
extract_goals coincides with the spec-side first-separator splitter, and the
example "Crescer na carreira, melhorar saúde" yields exactly the two goals. -/
theorem extract_goals_single_separator :
    (∀ text, extract_goals text = goalSplitSpec text) ∧
    extract_goals "Crescer na carreira, melhorar saúde" =
      ["Crescer na carreira", "melhorar saúde"] := by
  refine ⟨?_, rfl⟩
  intro text
  unfold extract_goals goalSplitSpec
  by_cases h1 : strContains (pyStrip text) ","
  · simp [List.find?, h1]
  · by_cases h2 : strContains (pyStrip text) " e "
    · simp [List.find?, h1, h2]
    · by_cases h3 : strContains (pyStrip text) "\n"
      · simp [List.find?, h1, h2, h3]
      · simp [List.find?, h1, h2, h3]

/-- C7: check_session_timeout resets exactly when the session is IN_PROGRESS
with a start timestamp more than max_days in the past — then the status
becomes NOT_STARTED with step, start timestamp and collected data cleared
and the reset is reported — and in every other case (fresh IN_PROGRESS,
NOT_STARTED, COMPLETED, or no timestamp) the state is returned unchanged
with no reset reported. -/
theorem check_session_timeout_characterized (profile : UserProfile) (now max_days : Nat) :
    (sessionTimedOut profile now max_days = true →
      check_session_timeout profile now max_days =
        (true,
          { profile with
            onboarding_status := OnboardingStatus.NOT_STARTED,
            onboarding_started_at := none,
            onboarding_current_step := none,
            onboarding_data := none })) ∧
    (sessionTimedOut profile now max_days = false →
      check_session_timeout profile now max_days = (false, profile)) := by
  unfold sessionTimedOut check_session_timeout
  by_cases hs : profile.onboarding_status = OnboardingStatus.IN_PROGRESS
  · cases hst : profile.onboarding_started_at with
    | none => simp [hs]
    | some started =>
        by_cases hd : now - started > max_days * 86400
        · simp [hs, hd]
        · simp [hs, hd]
  · constructor
    · intro h
      exact absurd h (by simp [hs])
    · intro _
      rw [if_pos]
      simp [hs]

/-- Witness for C7: a session started at 0 checked at 700000 seconds with a
7-day bound is reset and cleared; the same session checked at 600000 seconds
is untouched. -/
theorem check_session_timeout_characterized_witness :
    check_session_timeout profileMidFlow 700000 7 =
      (true,
        { onboarding_status := OnboardingStatus.NOT_STARTED,
          onboarding_current_step := none,
          onboarding_started_at := none,
          onboarding_completed_at := none,
          onboarding_data := none }) ∧
    check_session_timeout profileMidFlow 600000 7 = (false, profileMidFlow) :=
  ⟨(check_session_timeout_characterized profileMidFlow 700000 7).1 rfl,
   (check_session_timeout_characterized profileMidFlow 600000 7).2 rfl⟩

/-- C8: skip on any non-COMPLETED profile transitions to COMPLETED with a
non-null completed_at timestamp, without running any validation; skip on a
COMPLETED profile (in particular, skipping again) fails with the 400
error. -/
theorem skip_onboarding_transitions (profile : UserProfile) (now later : Nat) :
    (profile.onboarding_status ≠ OnboardingStatus.COMPLETED →
      skip_onboarding profile now =
        Except.ok
          { profile with
            onboarding_status := OnboardingStatus.COMPLETED,
            onboarding_completed_at := some now }) ∧
    (profile.onboarding_status = OnboardingStatus.COMPLETED →
      skip_onboarding profile now =
        Except.error (PyErr.http 400 "Onboarding already completed for this user")) ∧
    (∀ p2, skip_onboarding profile now = Except.ok p2 →
      skip_onboarding p2 later =
        Except.error (PyErr.http 400 "Onboarding already completed for this user")) := by
  refine ⟨?_, ?_, ?_⟩
  · intro h
    unfold skip_onboarding
    rw [if_neg h]
  · intro h
    unfold skip_onboarding
    rw [if_pos h]
  · intro p2 h
    unfold skip_onboarding at h
    by_cases hc : profile.onboarding_status = OnboardingStatus.COMPLETED
    · rw [if_pos hc] at h
      exact absurd h (by simp)
    · rw [if_neg hc] at h
      injection h with h1
      have h2 : p2.onboarding_status = OnboardingStatus.COMPLETED := by
        rw [← h1]
      unfold skip_onboarding
      rw [if_pos h2]

/-- Witness for C8: skipping the mid-flow profile at time 3 completes it
with completed_at 3, and skipping the result again at time 9 fails. -/
theorem skip_onboarding_transitions_witness :
    skip_onboarding profileMidFlow 3 = Except.ok profileSkipped ∧
    skip_onboarding profileSkipped 9 =
      Except.error (PyErr.http 400 "Onboarding already completed for this user") :=
  ⟨(skip_onboarding_transitions profileMidFlow 3 9).1 (by decide),
   (skip_onboarding_transitions profileMidFlow 3 9).2.2 profileSkipped
     ((skip_onboarding_transitions profileMidFlow 3 9).1 (by decide))⟩

/-- C10: skip_onboarding modifies only the status and completed_at fields:
the step marker, the start timestamp and the accumulated collected data of
the returned profile are unchanged, while status becomes COMPLETED and
completed_at the present time. -/
theorem skip_onboarding_frame (profile p2 : UserProfile) (now : Nat)
    (h : skip_onboarding profile now = Except.ok p2) :
    p2.onboarding_current_step = profile.onboarding_current_step ∧
    p2.onboarding_started_at = profile.onboarding_started_at ∧
    p2.onboarding_data = profile.onboarding_data ∧
    p2.onboarding_status = OnboardingStatus.COMPLETED ∧
    p2.onboarding_completed_at = some now := by
  unfold skip_onboarding at h
  by_cases hc : profile.onboarding_status = OnboardingStatus.COMPLETED
  · rw [if_pos hc] at h
    exact absurd h (by simp)
  · rw [if_neg hc] at h
    injection h with h1
    rw [← h1]
    exact ⟨rfl, rfl, rfl, rfl, rfl⟩

/-- Witness for C10: skipping the mid-flow profile keeps the goals step
marker, the start timestamp and the collected name. -/
theorem skip_onboarding_frame_witness :
    profileSkipped.onboarding_current_step = profileMidFlow.onboarding_current_step ∧
    profileSkipped.onboarding_started_at = profileMidFlow.onboarding_started_at ∧
    profileSkipped.onboarding_data = profileMidFlow.onboarding_data ∧
    profileSkipped.onboarding_status = OnboardingStatus.COMPLETED ∧
    profileSkipped.onboarding_completed_at = some 3 :=
  skip_onboarding_frame profileMidFlow profileSkipped 3 rfl

/-- C5: at every onboarding step that requires validation, an input the
step's validator rejects leaves the persisted profile entirely unchanged and
the reply carries is_valid false with the non-empty validator message. -/
theorem process_response_invalid_keeps_state (zoneOk : String → Bool) (profile : UserProfile)
    (st : OnboardingStep) (resp : String) (now : Nat)
    (hstep : profile.onboarding_current_step = some st.value)
    (hreq : (STEP_DEFINITIONS st).validation_required = true)
    (hval : (runValidator zoneOk st.value resp).1 = false) :
    handle_process_response zoneOk profile resp now =
      ({ success := true,
         data := some
           (RData.processData false ((runValidator zoneOk st.value resp).2) st.value
             none none []),
         error := none }, profile) ∧
    ∃ m, (runValidator zoneOk st.value resp).2 = some m ∧ m ≠ "" := by
  refine ⟨?_, runValidator_reject zoneOk st resp hreq hval⟩
  unfold handle_process_response
  have hcs : (get_onboarding_state profile).current_step = some st.value := hstep
  simp only [hcs]
  have hne : st.value ≠ "" := by cases st <;> decide
  rw [if_neg hne]
  simp only [get_step_from_string_value]
  unfold processStep
  rw [if_pos hreq]
  have hv : runValidator zoneOk st.value resp =
      (false, (runValidator zoneOk st.value resp).2) := by
    have he : runValidator zoneOk st.value resp =
        ((runValidator zoneOk st.value resp).1, (runValidator zoneOk st.value resp).2) := rfl
    rw [hval] at he
    exact he
  rw [hv]
  exact processStepV_invalid zoneOk profile st resp now _

/-- Witness for C5: an empty name at the name step is rejected with the
non-empty Portuguese prompt and the profile is unchanged. -/
theorem process_response_invalid_keeps_state_witness :
    handle_process_response zoneOkAll profileAtName "" 0 =
      ({ success := true,
         data := some
           (RData.processData false (some "Por favor, me diga seu nome.") "name"
             none none []),
         error := none }, profileAtName) :=
  (process_response_invalid_keeps_state zoneOkAll profileAtName OnboardingStep.NAME "" 0
    rfl rfl rfl).1

/-- Counterexample for C9: a registered skill may return
SkillResult(success=false) with no error at all, and SkillExecutor.execute
passes it through to its caller unchanged — the boundary invariant fails. -/
theorem executor_error_invariant_cex :
    SkillExecutor.execute registryC9 "sloppy" [] =
      Except.ok { success := false, data := none, error := none } := rfl

/-- C9 (amended): the failure results the boundaries construct themselves
satisfy the invariant that error is a non-empty string whenever success is
false — SkillExecutor.execute keeps it whenever the registered skill's own
results keep it (skill results are passed through unchanged),
execute_with_fallback keeps it under the same proviso when the fallback
message is omitted or non-empty, and every result of the onboarding skill's
execute keeps it unconditionally. -/
theorem skill_result_error_invariant :
    (∀ (registry : SkillRegistry) (skill_name : String) (args : Args) (result : SkillResult),
      (∀ sk, get_skill registry skill_name = some sk → skillWellBehaved sk) →
      SkillExecutor.execute registry skill_name args = Except.ok result →
      resultInvariant result) ∧
    (∀ (registry : SkillRegistry) (skill_name : String) (args : Args)
        (fallback_message : Option String),
      (∀ sk, get_skill registry skill_name = some sk → skillWellBehaved sk) →
      (∀ m, fallback_message = some m → m ≠ "") →
      resultInvariant
        (SkillExecutor.execute_with_fallback registry skill_name args fallback_message)) ∧
    (∀ (zoneOk uuidOk : String → Bool) (args : Args) (profile : UserProfile) (now : Nat),
      resultInvariant (skillOnboardingExecute zoneOk uuidOk args profile now).1) :=
  ⟨fun registry skill_name args result hwb hex =>
      execute_ok_inv registry skill_name args result hwb hex,
   fun registry skill_name args fallback_message hwb hfb =>
      execute_with_fallback_inv registry skill_name args fallback_message hwb hfb,
   fun zoneOk uuidOk args profile now =>
      skillOnboardingExecute_inv zoneOk uuidOk args profile now⟩

/-- Witness for C9: the defaulted not-found fallback result of an empty
registry satisfies the invariant. -/
theorem skill_result_error_invariant_witness :
    resultInvariant (SkillExecutor.execute_with_fallback ([] : SkillRegistry) "absent" [] none) :=
  skill_result_error_invariant.2.1 [] "absent" [] none
    (fun _ h => Option.noConfusion h)
    (fun _ h => Option.noConfusion h)

end Virtus
